import Mathlib

/-!
Verification of the stereographic sky-chart projection pipeline.

The development shallowly embeds the astronomical time functions
(helpers/time.py), the coordinate geometry (helpers/geometry.py and
stereographic_projector.py) and the catalog star model
(hip_catalog/hip_catalog.py) of the AstraGeek repository, and proves or
refutes the behavioural claims of the specification against them.

Conventions of the embedding:
- Python floats used in exact integer-valued positions are embedded as
  rational numbers; decimal literals become the corresponding rationals.
- Trigonometric computations are embedded over the real numbers.
- The NaN produced by numpy arccos outside its domain is modelled by
  Option, with none standing for NaN.
- Python int() truncates toward zero; that is embedded explicitly.
-/

namespace StereoProj

/-- Calendar time of day, mirroring the fields of a Python time object. -/
structure Time where
  hour : ℕ
  minute : ℕ
  second : ℕ
  deriving Repr, DecidableEq

/-- Calendar instant, mirroring the fields of a Python datetime object
(timezone data is not consulted by the embedded functions). -/
structure DateTime where
  year : ℕ
  month : ℕ
  day : ℕ
  hour : ℕ
  minute : ℕ
  second : ℕ
  deriving Repr, DecidableEq

/-- Python int() applied to a rational: truncation toward zero. -/
def py_int_q (x : ℚ) : ℤ :=
  if 0 ≤ x then ⌊x⌋ else ⌈x⌉

/-- Python int() applied to a real: truncation toward zero. -/
noncomputable def py_int_r (x : ℝ) : ℤ :=
  if 0 ≤ x then ⌊x⌋ else ⌈x⌉

/-- Embeds get_total_hours from helpers/time.py: time in fractional hours. -/
def get_total_hours (t : Time) : ℚ :=
  t.hour + (t.minute : ℚ) / 60 + (t.second : ℚ) / 3600

/-- Embeds julian_date from helpers/time.py, fields taken from the datetime
argument. The float expression int(365.25 * y) is embedded as 1461 * y / 4 in
natural division: 365.25 is exactly representable in binary floating point and
y is a nonnegative integer below 10000, so the float product is exact. The
expression int(30.6001 * (m + 1)) is embedded as 306001 * (m + 1) / 10000: for
m + 1 between 4 and 15 the product is at least 0.0004 away from the next
integer below or above, far beyond the rounding error of the double 30.6001,
so the truncations agree. The calendar-switch condition is the verbatim
conjunction of the source: year at most 1582, and month at most 10, and day at
most 4, each tested independently. -/
def julian_date (dt : DateTime) : ℚ :=
  let year := dt.year
  let month := dt.month
  let day := dt.day
  let ym : ℕ × ℕ := if month > 2 then (year, month) else (year - 1, month + 12)
  let y := ym.1
  let m := ym.2
  let b : ℤ :=
    if year ≤ 1582 ∧ month ≤ 10 ∧ day ≤ 4 then
      0
    else
      let a : ℕ := y / 100
      2 - (a : ℤ) + (a / 4 : ℕ)
  (((1461 * y) / 4 : ℕ) : ℚ) + ((306001 * (m + 1)) / 10000 : ℕ) + day + b + 1720994.5

/-- Julian date with the calendar switch evaluated the way the specification
mandates: a single chronological comparison of the full (year, month, day)
triple against 1582-10-04, every other step identical to julian_date. -/
def julian_date_chrono (dt : DateTime) : ℚ :=
  let year := dt.year
  let month := dt.month
  let day := dt.day
  let ym : ℕ × ℕ := if month > 2 then (year, month) else (year - 1, month + 12)
  let y := ym.1
  let m := ym.2
  let b : ℤ :=
    if year < 1582 ∨ (year = 1582 ∧ (month < 10 ∨ (month = 10 ∧ day ≤ 4))) then
      0
    else
      let a : ℕ := y / 100
      2 - (a : ℤ) + (a / 4 : ℕ)
  (((1461 * y) / 4 : ℕ) : ℚ) + ((306001 * (m + 1)) / 10000 : ℕ) + day + b + 1720994.5

/-- Leap-year test of the proleptic Gregorian calendar used by Python
datetime arithmetic. -/
def is_leap (y : ℕ) : Bool :=
  (y % 4 == 0 && y % 100 != 0) || y % 400 == 0

/-- Days strictly before the first day of a month within one year. -/
def days_before_month (leap : Bool) (m : ℕ) : ℕ :=
  let base :=
    match m with
    | 1 => 0 | 2 => 31 | 3 => 59 | 4 => 90 | 5 => 120 | 6 => 151
    | 7 => 181 | 8 => 212 | 9 => 243 | 10 => 273 | 11 => 304 | 12 => 334
    | _ => 0
  if leap && m > 2 then base + 1 else base

/-- Proleptic Gregorian ordinal of a calendar day, as used by Python datetime
subtraction: day 1 is 1 January of year 1. -/
def to_ordinal (y m d : ℕ) : ℤ :=
  365 * ((y : ℤ) - 1) + ((y - 1) / 4 : ℕ) - ((y - 1) / 100 : ℕ) + ((y - 1) / 400 : ℕ)
    + days_before_month (is_leap y) m + d

/-- Embeds get_time from helpers/time.py: a time object from fractional
hours. The Python modulo on floats is floored, embedded via the floor of the
quotient; the int() truncations are py_int_q. Python time() requires its
arguments in range, which holds on every use here; toNat embeds that. -/
def get_time (total_hours : ℚ) : Time :=
  let hours := py_int_q (total_hours - 24 * ⌊total_hours / 24⌋)
  let minutes := py_int_q ((total_hours - hours) * 60)
  let seconds := py_int_q ((total_hours - hours - (minutes : ℚ) / 60) * 3600)
  ⟨hours.toNat, minutes.toNat, seconds.toNat⟩

/-- Embeds get_timeshift from helpers/time.py, returning the timedelta as a
total number of seconds. np.rad2deg multiplies by 180 over pi. -/
noncomputable def get_timeshift (longitude : ℝ) : ℝ :=
  let total_hours := longitude * 180 / Real.pi / 15
  let hours := py_int_r (total_hours - 24 * ⌊total_hours / 24⌋)
  let minutes := py_int_r ((total_hours - (hours : ℝ)) * 60)
  let seconds := py_int_r ((total_hours - (hours : ℝ) - (minutes : ℝ) / 60) * 3600)
  (hours : ℝ) * 3600 + (minutes : ℝ) * 60 + (seconds : ℝ)

/-- Embeds get_sidereal_time from helpers/time.py. The timeshift of the
longitude is computed exactly as in the source and, exactly as in the source,
never applied: gmt is bound to the unmodified local instant. The origin
instant datetime(year, 1, 1) minus one day is 31 December of the previous
year; the elapsed-seconds quotient of the datetime subtraction is embedded
through the proleptic Gregorian ordinal. -/
noncomputable def get_sidereal_time (longitude : ℝ) (localTime : DateTime) : Time :=
  let timeshift := get_timeshift longitude
  let gmt := localTime
  let year := gmt.year
  let origin : DateTime := ⟨year - 1, 12, 31, 0, 0, 0⟩
  let shift : ℤ := py_int_q
    ((((to_ordinal gmt.year gmt.month gmt.day
        - to_ordinal origin.year origin.month origin.day) * 86400
        + (gmt.hour * 3600 + gmt.minute * 60 + gmt.second : ℕ) : ℤ) : ℚ) / 86400)
  let jd := julian_date origin
  let T := (jd - 2415020.0) / 36525.0
  let R := 6.6460656 + 2400.051262 * T + 0.00002581 * T ^ 2
  let U := R - 24 * ((year : ℚ) - 1900)
  let A := (0.0657098 : ℚ)
  let B := 24 - U
  let C := (1.002738 : ℚ)
  let T0 := (shift : ℚ) * A - B
  let lstRaw := C * get_total_hours ⟨localTime.hour, localTime.minute, localTime.second⟩ + T0
  let lst := lstRaw - 24 * ⌊lstRaw / 24⌋
  get_time lst

/-- Embeds np.deg2rad: degrees to radians. -/
noncomputable def deg2rad (x : ℝ) : ℝ := x * Real.pi / 180

/-- Embeds vequinox_hour_angle from helpers/time.py. -/
noncomputable def vequinox_hour_angle (longitude : ℝ) (localTime : DateTime) : ℝ :=
  let sidereal_time := get_sidereal_time longitude localTime
  deg2rad ((get_total_hours sidereal_time : ℚ) * 15.0)

/-- Claim C1: the Julian-date computation decides the Julian/Gregorian switch
by the independently gated conjunction year at most 1582 and month at most 10
and day at most 4, not by a single chronological comparison against
1582-10-04. On 30 September 1582, a date chronologically before the switch,
the code therefore applies the Gregorian correction b = -10 and returns
2299145.5, while the chronological comparison required by the claim gives the
Julian rule b = 0 and 2299155.5, ten days later. -/
theorem julian_date_switch_bug :
    julian_date ⟨1582, 9, 30, 0, 0, 0⟩ = 2299145.5 ∧
    julian_date_chrono ⟨1582, 9, 30, 0, 0, 0⟩ = 2299155.5 ∧
    julian_date ⟨1582, 9, 30, 0, 0, 0⟩ ≠ julian_date_chrono ⟨1582, 9, 30, 0, 0, 0⟩ := by
  refine ⟨by norm_num [julian_date], by norm_num [julian_date_chrono], by norm_num [julian_date, julian_date_chrono]⟩

/-- Embeds Star.init_eci from hip_catalog/hip_catalog.py: the inertial unit
vector derived from right ascension and declination. -/
noncomputable def star_eci (alpha delta : ℝ) : ℝ × ℝ × ℝ :=
  (Real.cos alpha * Real.cos delta, Real.sin alpha * Real.cos delta, Real.sin delta)

/-- Embeds the rotation matrix of get_horizontal_coords in
helpers/geometry.py applied to a vector: row one is sin t, minus cos t, 0;
row two is sin l cos t, sin l sin t, minus cos l; row three is cos l cos t,
cos l sin t, sin l, with t the sidereal hour angle and l the latitude. -/
noncomputable def rot_apply (t l : ℝ) (v : ℝ × ℝ × ℝ) : ℝ × ℝ × ℝ :=
  let st := Real.sin t
  let ct := Real.cos t
  let sl := Real.sin l
  let cl := Real.cos l
  (st * v.1 - ct * v.2.1,
   sl * ct * v.1 + sl * st * v.2.1 - cl * v.2.2,
   cl * ct * v.1 + cl * st * v.2.1 + sl * v.2.2)

/-- Transpose of the helpers/geometry.py rotation matrix applied to a
vector. -/
noncomputable def rot_transpose_apply (t l : ℝ) (v : ℝ × ℝ × ℝ) : ℝ × ℝ × ℝ :=
  let st := Real.sin t
  let ct := Real.cos t
  let sl := Real.sin l
  let cl := Real.cos l
  (st * v.1 + sl * ct * v.2.1 + cl * ct * v.2.2,
   -ct * v.1 + sl * st * v.2.1 + cl * st * v.2.2,
   -cl * v.2.1 + sl * v.2.2)

/-- Embeds the rotation matrix built in StereoProjector make_star_views in
stereographic_projector.py applied to a vector. -/
noncomputable def rot_apply_proj (t l : ℝ) (v : ℝ × ℝ × ℝ) : ℝ × ℝ × ℝ :=
  let st := Real.sin t
  let ct := Real.cos t
  let sl := Real.sin l
  let cl := Real.cos l
  (st * v.1 + sl * ct * v.2.1 - cl * ct * v.2.2,
   -ct * v.1 + sl * st * v.2.1 - cl * st * v.2.2,
   cl * v.2.1 + sl * v.2.2)

/-- Transpose of the stereographic_projector.py rotation matrix applied to a
vector. -/
noncomputable def rot_transpose_apply_proj (t l : ℝ) (v : ℝ × ℝ × ℝ) : ℝ × ℝ × ℝ :=
  let st := Real.sin t
  let ct := Real.cos t
  let sl := Real.sin l
  let cl := Real.cos l
  (st * v.1 - ct * v.2.1,
   sl * ct * v.1 + sl * st * v.2.1 + cl * v.2.2,
   -(cl * ct) * v.1 - cl * st * v.2.1 + sl * v.2.2)

/-- Claim C6: the inertial vector derived at Star construction is
cos a cos d, sin a cos d, sin d, and its squared norm equals 1 exactly, hence
deviates from 1 by at most 1e-9. -/
theorem star_eci_unit_norm :
    ∀ alpha delta : ℝ,
      star_eci alpha delta =
        (Real.cos alpha * Real.cos delta, Real.sin alpha * Real.cos delta, Real.sin delta) ∧
      (star_eci alpha delta).1 ^ 2 + (star_eci alpha delta).2.1 ^ 2
        + (star_eci alpha delta).2.2 ^ 2 = 1 ∧
      |(star_eci alpha delta).1 ^ 2 + (star_eci alpha delta).2.1 ^ 2
        + (star_eci alpha delta).2.2 ^ 2 - 1| ≤ 1e-9 := by
  intro alpha delta
  have hnorm : (star_eci alpha delta).1 ^ 2 + (star_eci alpha delta).2.1 ^ 2
      + (star_eci alpha delta).2.2 ^ 2 = 1 := by
    simp only [star_eci]
    linear_combination Real.cos delta ^ 2 * Real.sin_sq_add_cos_sq alpha
      + Real.sin_sq_add_cos_sq delta
  refine ⟨rfl, hnorm, ?_⟩
  rw [hnorm]
  norm_num

/-- Claim C5: both rotation matrices are orthonormal: for every sidereal hour
angle, latitude and vector, applying the helpers/geometry.py matrix and then
its transpose recovers the vector, the same holds in the other order, and the
same holds for the stereographic_projector.py matrix; the recovery is exact,
hence within 1e-9. -/
theorem rotation_matrix_roundtrip :
    ∀ (t l : ℝ) (v : ℝ × ℝ × ℝ),
      rot_transpose_apply t l (rot_apply t l v) = v ∧
      rot_apply t l (rot_transpose_apply t l v) = v ∧
      rot_transpose_apply_proj t l (rot_apply_proj t l v) = v ∧
      rot_apply_proj t l (rot_transpose_apply_proj t l v) = v := by
  intro t l v
  obtain ⟨x, y, z⟩ := v
  have ht := Real.sin_sq_add_cos_sq t
  have hl := Real.sin_sq_add_cos_sq l
  refine ⟨?_, ?_, ?_, ?_⟩ <;>
      simp only [rot_apply, rot_transpose_apply, rot_apply_proj, rot_transpose_apply_proj,
        Prod.mk.injEq]
  · exact ⟨by linear_combination x * ht + (x * Real.cos t ^ 2 + y * Real.sin t * Real.cos t) * hl,
      by linear_combination y * ht + (x * Real.cos t * Real.sin t + y * Real.sin t ^ 2) * hl,
      by linear_combination z * hl⟩
  · exact ⟨by linear_combination x * ht,
      by linear_combination (y * Real.sin l ^ 2 + z * Real.sin l * Real.cos l) * ht + y * hl,
      by linear_combination (y * Real.cos l * Real.sin l + z * Real.cos l ^ 2) * ht + z * hl⟩
  · exact ⟨by linear_combination x * ht,
      by linear_combination (y * Real.sin l ^ 2 - z * Real.sin l * Real.cos l) * ht + y * hl,
      by linear_combination (-(y * Real.cos l * Real.sin l) + z * Real.cos l ^ 2) * ht + z * hl⟩
  · exact ⟨by linear_combination x * ht + (x * Real.cos t ^ 2 + y * Real.cos t * Real.sin t) * hl,
      by linear_combination y * ht + (x * Real.sin t * Real.cos t + y * Real.sin t ^ 2) * hl,
      by linear_combination z * hl⟩

/-- Embeds np.arccos: numpy returns NaN outside the domain from minus 1 to 1,
modelled here by none. -/
noncomputable def np_arccos (x : ℝ) : Option ℝ :=
  if -1 ≤ x ∧ x ≤ 1 then some (Real.arccos x) else none

/-- Embeds np.atan2 applied as np.atan2 a b: the angle of the point with
abscissa b and ordinate a, in the half-open interval from minus pi exclusive
to pi inclusive, with value 0 at the origin as in numpy. -/
noncomputable def np_atan2 (a b : ℝ) : ℝ :=
  Complex.arg ⟨b, a⟩

/-- Result of get_horizontal_coords in helpers/geometry.py for a single star:
the rotated cartesian vector, the azimuth, and the zenith distance. -/
structure HorizCoordsResult where
  cartesian : ℝ × ℝ × ℝ
  azimuth : ℝ
  zenith_dist : Option ℝ

/-- Error named by the specification for a horizon vector whose norm deviates
from 1 beyond tolerance. -/
inductive DataIntegrityError where
  | normDeviation

/-- Embeds get_horizontal_coords from helpers/geometry.py for a single star:
rotate the inertial vector, take the azimuth as np.atan2 of the first and
second components minus half pi, and the zenith distance as np.arccos of the
third component, with no clamping of the arccos argument. -/
noncomputable def get_horizontal_coords_one (t l : ℝ) (v : ℝ × ℝ × ℝ) : HorizCoordsResult :=
  let w := rot_apply t l v
  { cartesian := w
    azimuth := np_atan2 w.1 w.2.1 - Real.pi / 2
    zenith_dist := np_arccos w.2.2 }

/-- The same transformation viewed in the error channel the specification
prescribes: the source of get_horizontal_coords contains no norm check and no
raise statement, so the error constructor never occurs and every input is
mapped to an ok result. -/
noncomputable def get_horizontal_coords_exc (t l : ℝ) (v : ℝ × ℝ × ℝ) :
    Except DataIntegrityError HorizCoordsResult :=
  Except.ok (get_horizontal_coords_one t l v)

/-- Horizontal coordinates dataclass of helpers/geometry.py. -/
structure HorizontalCoords where
  zenith_dist : ℝ
  azimuth : ℝ

/-- Star view dataclass of helpers/geometry.py: magnitude with horizontal
coordinates. -/
structure StarView where
  v_mag : ℝ
  hor_coords : HorizontalCoords

/-- Point projection dataclass of helpers/geometry.py: marker radius, polar
radius and polar angle. -/
structure PointProjection where
  radius : ℝ
  rho : ℝ
  phi : ℝ

/-- Embeds mag_to_radius from helpers/geometry.py: 1.5 times the larger of
the criteria minus the magnitude and 0. -/
noncomputable def mag_to_radius (magnitude mag_criteria : ℝ) : ℝ :=
  1.5 * max (mag_criteria - magnitude) 0

/-- Embeds the static method mag_to_radius of StereoProjector in
stereographic_projector.py: the larger of 6 minus the magnitude and 0, with
no scale factor and the threshold fixed at 6. -/
noncomputable def mag_to_radius_proj (magnitude : ℝ) : ℝ :=
  max (6 - magnitude) 0

/-- Stereographic polar radius, the subexpression
2 times tan of half the zenith distance appearing in both list
comprehensions that build the point projections. -/
noncomputable def rho_of_zenith (zd : ℝ) : ℝ :=
  2 * Real.tan (zd / 2)

/-- Embeds make_point_projections from helpers/geometry.py: the list
comprehension keeps, in order, the star views whose zenith distance is at
most half pi and maps each to its point projection. -/
noncomputable def make_point_projections (star_view_data : List StarView)
    (mag_criteria : ℝ) : List PointProjection :=
  star_view_data.filterMap fun star_view =>
    if star_view.hor_coords.zenith_dist ≤ Real.pi / 2 then
      some { radius := mag_to_radius star_view.v_mag mag_criteria
             rho := rho_of_zenith star_view.hor_coords.zenith_dist
             phi := star_view.hor_coords.azimuth }
    else none

/-- Embeds the method make_point_projections of StereoProjector in
stereographic_projector.py: identical comprehension, with the marker radius
taken from the static method of the class. -/
noncomputable def make_point_projections_proj (star_view_data : List StarView) :
    List PointProjection :=
  star_view_data.filterMap fun star_view =>
    if star_view.hor_coords.zenith_dist ≤ Real.pi / 2 then
      some { radius := mag_to_radius_proj star_view.v_mag
             rho := rho_of_zenith star_view.hor_coords.zenith_dist
             phi := star_view.hor_coords.azimuth }
    else none

/-- Embeds the constructor of StereoProjConfig in stereographic_projector.py
together with its post-init hook: both angles are multiplied by pi over 180
once, and no validation of any kind is performed. -/
structure StereoProjConfig where
  add_ecliptic : Bool
  utc_time : DateTime
  latitude : ℝ
  longitude : ℝ

/-- Error named by the specification for an observer configuration whose
latitude or longitude is out of range. -/
inductive InvalidConfig where
  | outOfRange

/-- Construction of a StereoProjConfig in the error channel the
specification prescribes: the source performs no range check, so the error
constructor never occurs; the degree-to-radian conversion happens exactly
once, in the post-init hook. -/
noncomputable def mkStereoProjConfig (add_ecliptic : Bool) (utc_time : DateTime)
    (latitude longitude : ℝ) : Except InvalidConfig StereoProjConfig :=
  Except.ok
    { add_ecliptic := add_ecliptic
      utc_time := utc_time
      latitude := latitude * (Real.pi / 180)
      longitude := longitude * (Real.pi / 180) }

/-- A list comprehension with a guard is the stable filter followed by the
map: helper shared by the projection claims. -/
lemma filterMap_guard_eq_map_filter {α β : Type} (p : α → Prop) [DecidablePred p]
    (f : α → β) (l : List α) :
    (l.filterMap fun a => if p a then some (f a) else none) =
      (l.filter fun a => decide (p a)).map f := by
  induction l with
  | nil => rfl
  | cons a tl ih => by_cases h : p a <;> simp [List.filter_cons, h, ih]

/-- The arccos embedding yields NaN, that is none, exactly on arguments
outside the closed interval from minus 1 to 1. -/
lemma np_arccos_eq_none_iff (x : ℝ) :
    np_arccos x = none ↔ x < -1 ∨ 1 < x := by
  simp only [np_arccos, ite_eq_right_iff, reduceCtorEq, imp_false, not_and_or, not_le]

/-- Whenever the arccos embedding yields a value, it lies in the closed
interval from 0 to pi. -/
lemma np_arccos_some_bounds (x zd : ℝ) (h : np_arccos x = some zd) :
    0 ≤ zd ∧ zd ≤ Real.pi := by
  revert h
  simp only [np_arccos]
  split
  · intro h
    cases h
    exact ⟨Real.arccos_nonneg x, Real.arccos_le_pi x⟩
  · intro h
    cases h

/-- Claim C2: the projection step is a stable filter: both the helper
function with the criteria parameter and the projector method emit exactly
the subsequence of star views whose zenith distance is at most half pi, in
the original order, so the output length equals the count of qualifying
inputs. -/
theorem point_projections_stable_filter :
    ∀ (svs : List StarView) (c : ℝ),
      make_point_projections svs c =
        (svs.filter fun sv => decide (sv.hor_coords.zenith_dist ≤ Real.pi / 2)).map
          (fun sv =>
            { radius := mag_to_radius sv.v_mag c
              rho := rho_of_zenith sv.hor_coords.zenith_dist
              phi := sv.hor_coords.azimuth }) ∧
      (make_point_projections svs c).length =
        svs.countP (fun sv => decide (sv.hor_coords.zenith_dist ≤ Real.pi / 2)) ∧
      make_point_projections_proj svs =
        (svs.filter fun sv => decide (sv.hor_coords.zenith_dist ≤ Real.pi / 2)).map
          (fun sv =>
            { radius := mag_to_radius_proj sv.v_mag
              rho := rho_of_zenith sv.hor_coords.zenith_dist
              phi := sv.hor_coords.azimuth }) ∧
      (make_point_projections_proj svs).length =
        svs.countP (fun sv => decide (sv.hor_coords.zenith_dist ≤ Real.pi / 2)) := by
  intro svs c
  have h1 := filterMap_guard_eq_map_filter
    (fun sv : StarView => sv.hor_coords.zenith_dist ≤ Real.pi / 2)
    (fun sv =>
      { radius := mag_to_radius sv.v_mag c
        rho := rho_of_zenith sv.hor_coords.zenith_dist
        phi := sv.hor_coords.azimuth : PointProjection }) svs
  have h2 := filterMap_guard_eq_map_filter
    (fun sv : StarView => sv.hor_coords.zenith_dist ≤ Real.pi / 2)
    (fun sv =>
      { radius := mag_to_radius_proj sv.v_mag
        rho := rho_of_zenith sv.hor_coords.zenith_dist
        phi := sv.hor_coords.azimuth : PointProjection }) svs
  refine ⟨h1, ?_, h2, ?_⟩
  · rw [show make_point_projections svs c = _ from h1, List.length_map,
      ← List.countP_eq_length_filter]
  · rw [show make_point_projections_proj svs = _ from h2, List.length_map,
      ← List.countP_eq_length_filter]

/-- Claim C3: every emitted polar radius is 2 times tan of half the zenith
distance of the corresponding qualifying star view; as a function of zenith
distance this is strictly increasing on the interval from 0 to half pi, is 0
at 0 and exactly 2 at half pi. -/
theorem rho_monotone_endpoints :
    StrictMonoOn rho_of_zenith (Set.Icc 0 (Real.pi / 2)) ∧
    rho_of_zenith 0 = 0 ∧
    rho_of_zenith (Real.pi / 2) = 2 ∧
    ∀ (svs : List StarView) (c : ℝ),
      (make_point_projections svs c).map PointProjection.rho =
        (svs.filter fun sv => decide (sv.hor_coords.zenith_dist ≤ Real.pi / 2)).map
          (fun sv => rho_of_zenith sv.hor_coords.zenith_dist) := by
  refine ⟨?_, ?_, ?_, ?_⟩
  · intro a ha b hb hab
    have hpi := Real.pi_pos
    have h1 : a / 2 ∈ Set.Ioo (-(Real.pi / 2)) (Real.pi / 2) := by
      constructor <;> nlinarith [ha.1, ha.2]
    have h2 : b / 2 ∈ Set.Ioo (-(Real.pi / 2)) (Real.pi / 2) := by
      constructor <;> nlinarith [hb.1, hb.2]
    have htan := Real.strictMonoOn_tan h1 h2 (by linarith)
    simp only [rho_of_zenith]
    linarith [htan]
  · simp [rho_of_zenith]
  · show 2 * Real.tan (Real.pi / 2 / 2) = 2
    rw [show Real.pi / 2 / 2 = Real.pi / 4 by ring, Real.tan_pi_div_four]
    norm_num
  · intro svs c
    simp only [make_point_projections]
    rw [filterMap_guard_eq_map_filter
      (fun sv : StarView => sv.hor_coords.zenith_dist ≤ Real.pi / 2)
      (fun sv =>
        { radius := mag_to_radius sv.v_mag c
          rho := rho_of_zenith sv.hor_coords.zenith_dist
          phi := sv.hor_coords.azimuth : PointProjection }) svs,
      List.map_map]
    rfl

/-- Witness for claim C3 at concrete points: the polar radius at the zenith
is strictly below the polar radius at the horizon. -/
theorem rho_monotone_endpoints_witness :
    rho_of_zenith 0 < rho_of_zenith (Real.pi / 2) :=
  rho_monotone_endpoints.1
    ⟨le_refl 0, by positivity⟩
    ⟨by positivity, le_refl (Real.pi / 2)⟩
    (by positivity)

/-- Counterexample for claim C4: the radius computed by the projector class
at magnitude 0 is 6, not the 9 the claimed formula gives with the threshold
6; the class method ignores the criteria and applies no 1.5 scale. -/
theorem mag_radius_scale_counterexample :
    mag_to_radius_proj 0 = 6 ∧ mag_to_radius 0 6 = 9 ∧
    mag_to_radius_proj 0 ≠ mag_to_radius 0 6 := by
  refine ⟨?_, ?_, ?_⟩ <;>
    norm_num [mag_to_radius, mag_to_radius_proj, max_def]

/-- Claim C4 as amended: the helper mag_to_radius realises the claimed
mapping, 1.5 times the larger of criteria minus magnitude and 0, monotone
non-increasing in the magnitude, never negative, zero at or beyond the
criteria and 1.5 times X at criteria minus X; the projector class method
instead computes the larger of 6 minus the magnitude and 0, monotone
non-increasing and never negative but with unit scale and threshold fixed
at 6. -/
theorem mag_radius_mapping :
    ∀ m m2 c X : ℝ,
      mag_to_radius m c = 1.5 * max (c - m) 0 ∧
      0 ≤ mag_to_radius m c ∧
      (m ≤ m2 → mag_to_radius m2 c ≤ mag_to_radius m c) ∧
      (c ≤ m → mag_to_radius m c = 0) ∧
      (0 ≤ X → mag_to_radius (c - X) c = 1.5 * X) ∧
      mag_to_radius_proj m = max (6 - m) 0 ∧
      0 ≤ mag_to_radius_proj m ∧
      (m ≤ m2 → mag_to_radius_proj m2 ≤ mag_to_radius_proj m) := by
  intro m m2 c X
  refine ⟨rfl, ?_, ?_, ?_, ?_, rfl, ?_, ?_⟩
  · exact mul_nonneg (by norm_num) (le_max_right _ 0)
  · intro h
    unfold mag_to_radius
    gcongr
  · intro h
    unfold mag_to_radius
    rw [max_eq_right (by linarith)]
    ring
  · intro hX
    unfold mag_to_radius
    rw [show c - (c - X) = X by ring, max_eq_left hX]
  · exact le_max_right _ 0
  · intro h
    unfold mag_to_radius_proj
    gcongr

/-- Witness for claim C4 at concrete inputs: radius vanishes past the
criteria, scales by 1.5 below it, and the projector radius is monotone
non-increasing. -/
theorem mag_radius_mapping_witness :
    mag_to_radius 7 6 = 0 ∧ mag_to_radius (6 - 2) 6 = 1.5 * 2 ∧
    mag_to_radius_proj 5 ≤ mag_to_radius_proj 3 :=
  ⟨(mag_radius_mapping 7 0 6 0).2.2.2.1 (by norm_num),
   (mag_radius_mapping 0 0 6 2).2.2.2.2.1 (by norm_num),
   (mag_radius_mapping 3 5 0 0).2.2.2.2.2.2.2 (by norm_num)⟩

/-- Counterexample for claim C7: at sidereal angle 0, latitude 0 and input
vector of squared norm 4, deviating from 1 far beyond 1e-9, the coordinate
transformation still returns an ok result and signals nothing. -/
theorem integrity_error_counterexample :
    (rot_apply 0 0 (2, 0, 0)).1 ^ 2 + (rot_apply 0 0 (2, 0, 0)).2.1 ^ 2
      + (rot_apply 0 0 (2, 0, 0)).2.2 ^ 2 = 4 ∧
    ¬(|(4 : ℝ) - 1| ≤ 1e-9) ∧
    get_horizontal_coords_exc 0 0 (2, 0, 0) =
      Except.ok (get_horizontal_coords_one 0 0 (2, 0, 0)) := by
  refine ⟨?_, by norm_num, rfl⟩
  simp [rot_apply]
  norm_num

/-- Claim C7 as amended: the coordinate transformation never signals a
DataIntegrityError: it contains no norm check, so every input vector is
mapped to an ok result whatever its norm; in exact arithmetic the rotation
preserves the unit norm, so no in-spec input could trigger the check
anyway. -/
theorem horizontal_coords_never_error :
    ∀ (t l : ℝ) (v : ℝ × ℝ × ℝ),
      get_horizontal_coords_exc t l v = Except.ok (get_horizontal_coords_one t l v) ∧
      (v.1 ^ 2 + v.2.1 ^ 2 + v.2.2 ^ 2 = 1 →
        (rot_apply t l v).1 ^ 2 + (rot_apply t l v).2.1 ^ 2
          + (rot_apply t l v).2.2 ^ 2 = 1) := by
  intro t l v
  refine ⟨rfl, ?_⟩
  intro hv
  simp only [rot_apply]
  linear_combination (v.1 ^ 2 + v.2.1 ^ 2) * Real.sin_sq_add_cos_sq t
    + (v.1 ^ 2 * Real.cos t ^ 2 + v.2.1 ^ 2 * Real.sin t ^ 2
      + 2 * v.1 * v.2.1 * Real.cos t * Real.sin t + v.2.2 ^ 2) * Real.sin_sq_add_cos_sq l
    + hv

/-- Witness for claim C7 at a concrete unit vector. -/
theorem horizontal_coords_never_error_witness :
    get_horizontal_coords_exc 0 0 (1, 0, 0) =
      Except.ok (get_horizontal_coords_one 0 0 (1, 0, 0)) ∧
    (rot_apply 0 0 (1, 0, 0)).1 ^ 2 + (rot_apply 0 0 (1, 0, 0)).2.1 ^ 2
      + (rot_apply 0 0 (1, 0, 0)).2.2 ^ 2 = 1 :=
  ⟨(horizontal_coords_never_error 0 0 (1, 0, 0)).1,
   (horizontal_coords_never_error 0 0 (1, 0, 0)).2 (by norm_num)⟩

/-- Counterexample for claim C8: no clamping protects the arccos argument;
with latitude half pi and a raw input vector whose third component is 3 over
2, the rotated vector has third component 3 over 2 and the zenith distance
is NaN, modelled as none, not a value in the interval from 0 to pi. -/
theorem zenith_clamp_counterexample :
    np_arccos (3 / 2) = none ∧
    (get_horizontal_coords_one 0 (Real.pi / 2) (0, 0, 3 / 2)).zenith_dist = none := by
  constructor
  · rw [np_arccos_eq_none_iff]
    norm_num
  · simp only [get_horizontal_coords_one, rot_apply, Real.sin_pi_div_two,
      Real.cos_pi_div_two, Real.sin_zero, Real.cos_zero]
    rw [show (0 : ℝ) * 1 * 0 + 0 * 0 * 0 + 1 * (3 / 2) = 3 / 2 by ring,
      np_arccos_eq_none_iff]
    norm_num

/-- Claim C8 as amended: the arccos argument is not clamped, so the zenith
distance is NaN exactly when the raw third component leaves the interval
from minus 1 to 1; whenever a zenith distance is produced it lies in the
interval from 0 to pi; the azimuth of the helper always lies in the fixed
range from minus three halves pi exclusive to half pi inclusive, and the
negated atan2 used by the projector class always lies in the range from
minus pi inclusive to pi exclusive. -/
theorem zenith_azimuth_range :
    ∀ (t l : ℝ) (v : ℝ × ℝ × ℝ),
      (∀ zd : ℝ, (get_horizontal_coords_one t l v).zenith_dist = some zd →
        0 ≤ zd ∧ zd ≤ Real.pi) ∧
      ((get_horizontal_coords_one t l v).zenith_dist = none ↔
        (rot_apply t l v).2.2 < -1 ∨ 1 < (rot_apply t l v).2.2) ∧
      (-(3 * Real.pi / 2) < (get_horizontal_coords_one t l v).azimuth ∧
        (get_horizontal_coords_one t l v).azimuth ≤ Real.pi / 2) ∧
      (∀ a b : ℝ, -Real.pi ≤ -(np_atan2 a b) ∧ -(np_atan2 a b) < Real.pi) := by
  intro t l v
  refine ⟨?_, ?_, ⟨?_, ?_⟩, ?_⟩
  · intro zd h
    exact np_arccos_some_bounds _ zd h
  · exact np_arccos_eq_none_iff _
  · have := Complex.neg_pi_lt_arg (⟨(rot_apply t l v).2.1, (rot_apply t l v).1⟩ : ℂ)
    simp only [get_horizontal_coords_one, np_atan2]
    linarith
  · have := Complex.arg_le_pi (⟨(rot_apply t l v).2.1, (rot_apply t l v).1⟩ : ℂ)
    simp only [get_horizontal_coords_one, np_atan2]
    linarith
  · intro a b
    simp only [np_atan2]
    constructor
    · linarith [Complex.arg_le_pi (⟨b, a⟩ : ℂ)]
    · linarith [Complex.neg_pi_lt_arg (⟨b, a⟩ : ℂ)]

/-- Witness for claim C8 at a concrete in-range input: the produced zenith
distance lies between 0 and pi. -/
theorem zenith_azimuth_range_witness :
    0 ≤ Real.arccos (1 / 2) ∧ Real.arccos (1 / 2) ≤ Real.pi :=
  (zenith_azimuth_range 0 (Real.pi / 2) (0, 0, 1 / 2)).1 (Real.arccos (1 / 2))
    (by
      simp only [get_horizontal_coords_one, rot_apply, Real.sin_pi_div_two,
        Real.cos_pi_div_two, Real.sin_zero, Real.cos_zero]
      rw [show (0 : ℝ) * 1 * 0 + 0 * 0 * 0 + 1 * (1 / 2) = 1 / 2 by ring]
      simp only [np_arccos]
      rw [if_pos (by norm_num)])

/-- Counterexample for claim C9: constructing the configuration with
latitude 100 degrees, outside the claimed valid range, succeeds and raises
nothing. -/
theorem config_validation_counterexample :
    ¬((100 : ℝ) ≤ 90) ∧
    mkStereoProjConfig false ⟨2024, 1, 1, 0, 0, 0⟩ 100 0 =
      Except.ok ⟨false, ⟨2024, 1, 1, 0, 0, 0⟩, 100 * (Real.pi / 180), 0 * (Real.pi / 180)⟩ :=
  ⟨by norm_num, rfl⟩

/-- Claim C9 as amended: construction never validates and always succeeds,
converting both angles from degrees to radians by one multiplication with pi
over 180; degree inputs inside the claimed ranges land inside the
corresponding radian ranges. -/
theorem config_construction_total :
    ∀ (ae : Bool) (ut : DateTime) (lat lon : ℝ),
      mkStereoProjConfig ae ut lat lon =
        Except.ok ⟨ae, ut, lat * (Real.pi / 180), lon * (Real.pi / 180)⟩ ∧
      (|lat| ≤ 90 → |lat * (Real.pi / 180)| ≤ Real.pi / 2) ∧
      (|lon| ≤ 180 → |lon * (Real.pi / 180)| ≤ Real.pi) := by
  intro ae ut lat lon
  have hpos : (0 : ℝ) < Real.pi / 180 := by positivity
  refine ⟨rfl, ?_, ?_⟩
  · intro h
    rw [abs_mul, abs_of_pos hpos]
    nlinarith [mul_nonneg (sub_nonneg.mpr h) hpos.le]
  · intro h
    rw [abs_mul, abs_of_pos hpos]
    nlinarith [mul_nonneg (sub_nonneg.mpr h) hpos.le]

/-- Witness for claim C9 at concrete in-range inputs. -/
theorem config_construction_total_witness :
    |(45 : ℝ) * (Real.pi / 180)| ≤ Real.pi / 2 ∧
    |(90 : ℝ) * (Real.pi / 180)| ≤ Real.pi :=
  ⟨(config_construction_total false ⟨2024, 1, 1, 0, 0, 0⟩ 45 90).2.1 (by norm_num),
   (config_construction_total false ⟨2024, 1, 1, 0, 0, 0⟩ 45 90).2.2 (by norm_num)⟩

/-- Claim C10: neither the local sidereal time nor the vernal-equinox hour
angle depends on the longitude argument: the timeshift derived from the
longitude is computed but never applied to the instant. -/
theorem sidereal_time_ignores_longitude :
    ∀ (l1 l2 : ℝ) (t : DateTime),
      get_sidereal_time l1 t = get_sidereal_time l2 t ∧
      vequinox_hour_angle l1 t = vequinox_hour_angle l2 t :=
  fun _ _ _ => ⟨rfl, rfl⟩

end StereoProj
